import Mathlib

/-!
Verification of the ipod-manager repository: a shallow embedding of the
catalog store (src/ipod_db.py, class LibraryDB), the artwork pipeline
(_album_key, _get_or_create_ipod_artwork) and the synchronisation engine
(src/ipod_sync.py, class iPodSync) together with the GUI sync entry point
(src/ipod_manager.py, IPodManagerWindow._on_sync_clicked).

Modelling conventions.
Byte strings are `List Nat`.  SQLite rows become Lean structures; the
`tracks` table is a `List TrackRow` inside a `DB`, and the sqlite3
connection is a `Conn` holding the committed snapshot and the current
(possibly uncommitted) view: every statement mutates `current`, and
`conn.commit()` copies `current` into `committed`.  External collaborators
are passed in as function arguments: PIL image decoding
(`_preprocess_artwork`) is `pre : List Nat → Option (List Nat)` where
`none` models a decode exception, hashlib.sha256 hexdigest is
`hash : List Nat → String`, and the filesystem and libgpod calls of
`iPodSync.sync` are the fields of `SyncEnv` (os.path.isfile,
itdb_cp_track_to_ipod, itdb_write, itdb_parse, itdb_init_ipod, the
re-parse after init, and whether itdb_playlist_mpl finds a master
playlist).  Progress callbacks, the added_at timestamp column and the
playlists tables are not reached by any claim and are omitted; the
per-run done/total counters of sync feed only the progress callback and
are likewise omitted.
-/

/-- One row of the tracks table (src/ipod_db.py SCHEMA lines 55-71 plus
the migrated ipod_artwork_id column).  synced and deleted are the sqlite
integers 0/1. -/
structure TrackRow where
  id : Nat
  file_path : String
  title : String
  artist : String
  album : String
  genre : String
  track_nr : Int
  duration_ms : Int
  bitrate : Int
  filesize : Int
  cover_art : Option (List Nat)
  synced : Nat
  deleted : Nat
  filetype : String
  ipod_artwork_id : Option Nat
deriving DecidableEq

/-- One row of the ipod_artwork table (album_key UNIQUE, image_hash,
image_data). -/
structure ArtRow where
  id : Nat
  album_key : String
  image_hash : String
  image_data : List Nat
deriving DecidableEq

/-- The database file: both tables plus the AUTOINCREMENT counters that
produce lastrowid values. -/
structure DB where
  tracks : List TrackRow
  artwork : List ArtRow
  nextTrackId : Nat
  nextArtId : Nat
deriving DecidableEq

/-- The sqlite3 connection: statements mutate `current`; `commit` makes
`current` durable.  LibraryDB keeps one long-lived connection. -/
structure Conn where
  committed : DB
  current : DB
deriving DecidableEq

def Conn.commit (c : Conn) : Conn := { committed := c.current, current := c.current }

/-- The record produced by extract_metadata (src/ipod_db.py lines
96-159); tag reading itself is an external collaborator, so add_track is
modelled on the extracted record. -/
structure Meta where
  file_path : String
  title : String
  artist : String
  album : String
  genre : String
  track_nr : Int
  duration_ms : Int
  bitrate : Int
  filesize : Int
  cover_art : Option (List Nat)
  filetype : String
deriving DecidableEq

/-- Python truthiness of an optional bytes value: None and b are both
falsy when empty. -/
def truthyBytes : Option (List Nat) → Bool
  | none => false
  | some b => !b.isEmpty

/-- _album_key (src/ipod_db.py lines 29-31): strip + lower both parts,
joined by a NUL byte. -/
def album_key (artist album : String) : String :=
  artist.trim.toLower ++ String.singleton (Char.ofNat 0) ++ album.trim.toLower

/-- SELECT id, image_hash FROM ipod_artwork WHERE album_key=? ... fetchone:
the first row whose album_key matches. -/
def findArt : List ArtRow → String → Option ArtRow
  | [], _ => none
  | r :: rest, k => if r.album_key = k then some r else findArt rest k

/-- Result of _get_or_create_ipod_artwork: `out = none` models the PIL
decode exception escaping the call, `reprocessed` records whether
_preprocess_artwork was invoked. -/
structure ArtResult where
  out : Option Nat
  db : DB
  reprocessed : Bool
deriving DecidableEq

/-- _get_or_create_ipod_artwork (src/ipod_db.py lines 341-362). -/
def get_or_create_ipod_artwork (pre : List Nat → Option (List Nat))
    (hash : List Nat → String) (artist album : String) (raw : List Nat)
    (db : DB) : ArtResult :=
  let key := album_key artist album
  let h := hash raw
  match findArt db.artwork key with
  | some row =>
      if row.image_hash = h then ⟨some row.id, db, false⟩
      else
        match pre raw with
        | none => ⟨none, db, true⟩
        | some processed =>
            ⟨some row.id,
             { db with artwork := db.artwork.map (fun r =>
                 if r.id = row.id then { r with image_hash := h, image_data := processed } else r) },
             true⟩
  | none =>
      match pre raw with
      | none => ⟨none, db, true⟩
      | some processed =>
          ⟨some db.nextArtId,
           { db with artwork := db.artwork ++ [⟨db.nextArtId, key, h, processed⟩],
                     nextArtId := db.nextArtId + 1 },
           true⟩

/-- Outcome of LibraryDB.add_track: the returned row id, None on
sqlite3.IntegrityError (duplicate path), or the artwork decode exception
escaping the call uncaught. -/
inductive AddOutcome
  | inserted (id : Nat)
  | duplicate
  | artError
deriving DecidableEq

/-- LibraryDB.add_track / add_track_from_meta (src/ipod_db.py lines
364-411) on an already-extracted metadata record.  The INSERT raises
IntegrityError exactly when some row of the table (committed or not on
this connection) already has the same file_path; only that exception is
caught.  A decode failure inside the artwork step propagates out before
conn.commit() runs, leaving the inserted row uncommitted. -/
def add_track (pre : List Nat → Option (List Nat)) (hash : List Nat → String)
    (meta : Meta) (c : Conn) : AddOutcome × Conn :=
  if ∃ r ∈ c.current.tracks, r.file_path = meta.file_path then
    (.duplicate, c)
  else
    let tid := c.current.nextTrackId
    let row : TrackRow :=
      ⟨tid, meta.file_path, meta.title, meta.artist, meta.album, meta.genre,
       meta.track_nr, meta.duration_ms, meta.bitrate, meta.filesize,
       meta.cover_art, 0, 0, meta.filetype, none⟩
    let db1 : DB := { c.current with tracks := c.current.tracks ++ [row],
                                     nextTrackId := tid + 1 }
    if truthyBytes meta.cover_art then
      let ar := get_or_create_ipod_artwork pre hash meta.artist meta.album
                  (meta.cover_art.getD []) db1
      match ar.out with
      | none => (.artError, { c with current := ar.db })
      | some aid =>
          let db2 : DB := { ar.db with tracks := ar.db.tracks.map (fun r =>
              if r.id = tid then { r with ipod_artwork_id := some aid } else r) }
          (.inserted tid, Conn.commit { c with current := db2 })
    else
      (.inserted tid, Conn.commit { c with current := db1 })

/-- LibraryDB.remove_track: UPDATE tracks SET deleted=1 WHERE id=?, then
commit. -/
def remove_track (tid : Nat) (c : Conn) : Conn :=
  let t2 := c.current.tracks.map (fun t => if t.id = tid then { t with deleted := 1 } else t)
  Conn.commit { c with current := { c.current with tracks := t2 } }

/-- LibraryDB.get_unsynced: SELECT * FROM tracks WHERE synced=0 AND deleted=0. -/
def get_unsynced (db : DB) : List TrackRow :=
  db.tracks.filter (fun t => decide (t.synced = 0 ∧ t.deleted = 0))

/-- LibraryDB.get_deleted: SELECT * FROM tracks WHERE deleted=1 AND synced=1. -/
def get_deleted (db : DB) : List TrackRow :=
  db.tracks.filter (fun t => decide (t.deleted = 1 ∧ t.synced = 1))

/-- LibraryDB.mark_synced: UPDATE tracks SET synced=1 WHERE id=?, then
commit. -/
def mark_synced (tid : Nat) (c : Conn) : Conn :=
  let t2 := c.current.tracks.map (fun t => if t.id = tid then { t with synced := 1 } else t)
  Conn.commit { c with current := { c.current with tracks := t2 } }

/-- LibraryDB.purge_deleted (src/ipod_db.py lines 510-513): DELETE FROM
tracks WHERE deleted=1, then commit. -/
def purge_deleted (c : Conn) : Conn :=
  let t2 := c.current.tracks.filter (fun t => decide (¬ t.deleted = 1))
  Conn.commit { c with current := { c.current with tracks := t2 } }

/-- The observable fields of a libgpod Itdb_Track as filled in by
iPodSync.sync (src/ipod_sync.py lines 389-413): display strings, numeric
fields and the optionally attached thumbnail bytes.  devId models the
pointer identity of the in-memory track object. -/
structure DevTrack where
  devId : Nat
  title : String
  artist : String
  album : String
  genre : String
  filetype : String
  track_nr : Int
  tracklen : Int
  bitrate : Int
  size : Int
  mediatype : Nat
  thumb : Option (List Nat)
deriving DecidableEq

/-- The in-memory Itdb_iTunesDB: the track list and the master playlist
membership (by devId, in order).  nextDevId supplies fresh identities for
itdb_track_new. -/
structure DeviceDB where
  tracks : List DevTrack
  mpl : List Nat
  nextDevId : Nat
deriving DecidableEq

def ITDB_MEDIATYPE_AUDIO : Nat := 1

/-- The database produced by itdb_init_ipod followed by itdb_parse: a
fresh empty track list with an empty master playlist. -/
def emptyDevice : DeviceDB := ⟨[], [], 1⟩

/-- External collaborators of iPodSync.sync: the filesystem check for
each source path, the per-file itdb_cp_track_to_ipod outcome, the
itdb_write outcome, the itdb_parse / itdb_init_ipod / re-parse outcomes,
and whether itdb_playlist_mpl finds a master playlist. -/
structure SyncEnv where
  fileExists : String → Bool
  copyOk : String → Bool
  writeOk : Bool
  parseOk : Bool
  initOk : Bool
  parseAfterInitOk : Bool
  mplOk : Bool

/-- The RuntimeError raised by iPodSync.sync, by raise site. -/
inductive SyncErr
  | noIpod
  | initFailed
  | parseAfterInitFailed
  | noMpl
  | writeFailed
deriving DecidableEq

/-- The result record the specification says sync returns.  Modelled from
the spec: sync(callback) yields added, removed and failed counts; the
source function has no return statement, so its embedded return slot is
always none. -/
structure SyncCounts where
  added : Int
  removed : Int
  failed : Int
deriving DecidableEq

/-- Everything a caller of iPodSync.sync can observe: the raised error if
any, the Python return value (always None in the source, typed here
against the result record the spec declares), the catalog connection and
the in-memory device database as mutated by the run. -/
structure SyncResult where
  err : Option SyncErr
  ret : Option SyncCounts
  conn : Conn
  dev : DeviceDB

/-- One iteration of the additions loop (src/ipod_sync.py lines 380-416):
skip the row when its source file is missing; otherwise build the device
track, append it to the track list and the master playlist, attempt the
media copy (a failure only prints a warning), attach the cover thumbnail
when truthy, and mark the row synced in the catalog. -/
def addPhaseStep (env : SyncEnv) (st : Conn × DeviceDB) (row : TrackRow) :
    Conn × DeviceDB :=
  if env.fileExists row.file_path = false then st
  else
    let c := st.1
    let dev := st.2
    let t : DevTrack :=
      { devId := dev.nextDevId
        title := row.title
        artist := row.artist
        album := row.album
        genre := row.genre
        filetype := row.filetype
        track_nr := row.track_nr
        tracklen := row.duration_ms
        bitrate := if row.bitrate > 1000 then row.bitrate / 1000 else row.bitrate
        size := row.filesize
        mediatype := ITDB_MEDIATYPE_AUDIO
        thumb := if truthyBytes row.cover_art then row.cover_art else none }
    let dev2 : DeviceDB :=
      { dev with tracks := dev.tracks ++ [t], mpl := dev.mpl ++ [t.devId],
                 nextDevId := dev.nextDevId + 1 }
    let _copied := env.copyOk row.file_path
    (mark_synced row.id c, dev2)

/-- itdb_playlist_remove_track followed by itdb_track_remove for the
track object with the given identity. -/
def removeDevTrack (dev : DeviceDB) (i : Nat) : DeviceDB :=
  { dev with mpl := dev.mpl.erase i,
             tracks := dev.tracks.filter (fun t => decide (¬ t.devId = i)) }

/-- The removals loop over the collected matching device tracks. -/
def removePhase (victims : List Nat) (dev : DeviceDB) : DeviceDB :=
  victims.foldl removeDevTrack dev

/-- The whole additions loop: fold addPhaseStep over the rows returned by
get_unsynced (the cursor list is fixed before the loop starts, as
fetchall returns a list). -/
def addPhase (env : SyncEnv) (c0 : Conn) (dev0 : DeviceDB) : Conn × DeviceDB :=
  (get_unsynced c0.current).foldl (addPhaseStep env) (c0, dev0)

/-- The body of iPodSync.sync after a device database has been obtained
(src/ipod_sync.py lines 370-454): find the master playlist, run the
additions loop over the unsynced rows, collect the (title, artist, album)
keys of the deleted-and-synced rows, remove matching device tracks and
purge the catalog when that key set is non-empty, then write the device
database, raising on write failure.  The catalog commits (mark_synced,
purge_deleted) all happen before the write. -/
def syncBody (env : SyncEnv) (c0 : Conn) (dev0 : DeviceDB) : SyncResult :=
  if env.mplOk = false then ⟨some .noMpl, none, c0, dev0⟩
  else
    let st := addPhase env c0 dev0
    let c1 := st.1
    let dev1 := st.2
    let deleted := get_deleted c1.current
    let to_remove : List (String × String × String) :=
      deleted.map (fun r => (r.title, r.artist, r.album))
    if to_remove.isEmpty then
      if env.writeOk then ⟨none, none, c1, dev1⟩
      else ⟨some .writeFailed, none, c1, dev1⟩
    else
      let victims := (dev1.tracks.filter (fun t =>
          decide ((t.title, t.artist, t.album) ∈ to_remove))).map DevTrack.devId
      let dev2 := removePhase victims dev1
      let c2 := purge_deleted c1
      if env.writeOk then ⟨none, none, c2, dev2⟩
      else ⟨some .writeFailed, none, c2, dev2⟩

/-- Python truthiness of the mountpoint attribute: None and the empty
string are falsy. -/
def truthy : Option String → Bool
  | none => false
  | some s => decide (¬ s = "")

/-- iPodSync.sync (src/ipod_sync.py lines 348-454).  Raises when no
mountpoint is set; parses the device database, falling back to
itdb_init_ipod plus a re-parse (which yields a fresh empty database) and
raising when either step fails; then runs the sync body. -/
def sync (env : SyncEnv) (mp : Option String) (dev0 : DeviceDB) (c0 : Conn) :
    SyncResult :=
  if truthy mp = false then ⟨some .noIpod, none, c0, dev0⟩
  else if env.parseOk then syncBody env c0 dev0
  else if env.initOk = false then ⟨some .initFailed, none, c0, dev0⟩
  else if env.parseAfterInitOk then syncBody env c0 emptyDevice
  else ⟨some .parseAfterInitFailed, none, c0, dev0⟩

/-- iPodSync.needs_init (src/ipod_sync.py lines 264-270): false when no
mountpoint is set, otherwise true exactly when the SysInfoExtended file
is absent.  sysInfoExtendedExists models the os.path.isfile check under
the control directory of the mounted device. -/
def needs_init (mp : Option String) (sysInfoExtendedExists : Bool) : Bool :=
  if truthy mp then !sysInfoExtendedExists else false

/-- What IPodManagerWindow._on_sync_clicked did besides updating widgets:
returned without syncing because no device was found, returned after
prompting for initialisation, or ran iPodSync.sync. -/
inductive ClickOutcome
  | noIpod
  | promptInit
  | ranSync
deriving DecidableEq

/-- State left by the sync button handler: the outcome, the catalog
connection, the device database, and the sync result when sync ran. -/
structure ClickResult where
  outcome : ClickOutcome
  conn : Conn
  dev : DeviceDB
  sres : Option SyncResult

/-- IPodManagerWindow._on_sync_clicked (src/ipod_manager.py lines
587-620): re-detect the device when no mountpoint is set, give up when
still absent, prompt and return without syncing when needs_init holds,
otherwise run iPodSync.sync.  detectResult models what detect_ipod would
store as the mountpoint. -/
def on_sync_clicked (env : SyncEnv) (detectResult : Option String)
    (sysInfoExtendedExists : Bool) (mp0 : Option String)
    (dev : DeviceDB) (c : Conn) : ClickResult :=
  let mp := if truthy mp0 then mp0 else detectResult
  if truthy mp = false then ⟨.noIpod, c, dev, none⟩
  else if needs_init mp sysInfoExtendedExists then ⟨.promptInit, c, dev, none⟩
  else
    let r := sync env mp dev c
    ⟨.ranSync, r.conn, r.dev, some r⟩

/-! ### Concrete fixtures used by closed theorems -/

/-- A small track row: id, file path, synced flag, deleted flag; the
display fields are filled deterministically from the id. -/
def trk (i : Nat) (p : String) (s d : Nat) : TrackRow :=
  ⟨i, p, "t" ++ toString i, "ar", "al", "", 0, 0, 0, 0, none, s, d, "mp3", none⟩

def dbOf (l : List TrackRow) : DB := ⟨l, [], 10, 1⟩

/-- A clean connection (committed = current) over the given rows. -/
def connOf (l : List TrackRow) : Conn := ⟨dbOf l, dbOf l⟩

/-- Environment in which every external step succeeds. -/
def envAllOk : SyncEnv := ⟨fun _ => true, fun _ => true, true, true, true, true, true⟩

/-- Environment in which only the final device database write fails. -/
def envWriteFail : SyncEnv := ⟨fun _ => true, fun _ => true, false, true, true, true, true⟩

/-- Environment in which every media copy to the device fails. -/
def envCopyFail : SyncEnv := ⟨fun _ => true, fun _ => false, true, true, true, true, true⟩

/-- Environment in which the source file at path /b is missing. -/
def envFileBMissing : SyncEnv :=
  ⟨fun p => !(p == "/b"), fun _ => true, true, true, true, true, true⟩

/-- A metadata record carrying non-empty cover-art bytes. -/
def meta8 : Meta := ⟨"/new", "x", "A", "B", "", 0, 0, 0, 0, some [1, 2], "mp3"⟩

/-- An artwork row for the album key of meta8 whose stored hash differs
from the hash the fixture hash function returns. -/
def artStale : ArtRow := ⟨5, album_key "A" "B", "old", [7]⟩

/-- A clean connection with an empty tracks table whose artwork table
already holds artStale. -/
def connArtStale : Conn := ⟨⟨[], [artStale], 10, 6⟩, ⟨[], [artStale], 10, 6⟩⟩

/-! ### Supporting lemmas about the additions loop and the sync body -/

/-- The catalog effect of one full additions loop, expressed pointwise: a
row gets synced set to 1 exactly when some processed unsynced row with an
existing source file carries its id. -/
def addMark (fe : String → Bool) (rows : List TrackRow) (t : TrackRow) : TrackRow :=
  if ∃ r ∈ rows, fe r.file_path = true ∧ r.id = t.id then { t with synced := 1 } else t

theorem addMark_nil (fe : String → Bool) (t : TrackRow) : addMark fe [] t = t := by
  simp [addMark]

theorem addMark_deleted (fe : String → Bool) (rows : List TrackRow) (t : TrackRow) :
    (addMark fe rows t).deleted = t.deleted := by
  unfold addMark; split <;> rfl

theorem addMark_synced_one (fe : String → Bool) (rows : List TrackRow) (t : TrackRow)
    (h : t.synced = 1) : (addMark fe rows t).synced = 1 := by
  unfold addMark; split <;> simp [h]

theorem addMark_cons_skip (fe : String → Bool) (r : TrackRow) (rs : List TrackRow)
    (hfe : fe r.file_path = false) (t : TrackRow) :
    addMark fe rs t = addMark fe (r :: rs) t := by
  unfold addMark
  congr 1
  simp only [List.mem_cons, eq_iff_iff]
  constructor
  · rintro ⟨x, hx, h1, h2⟩; exact ⟨x, Or.inr hx, h1, h2⟩
  · rintro ⟨x, hx, h1, h2⟩
    rcases hx with rfl | hx
    · rw [hfe] at h1; cases h1
    · exact ⟨x, hx, h1, h2⟩

theorem addMark_cons_mark (fe : String → Bool) (r : TrackRow) (rs : List TrackRow)
    (hfe : fe r.file_path = true) (t : TrackRow) :
    addMark fe rs (if t.id = r.id then { t with synced := 1 } else t) =
      addMark fe (r :: rs) t := by
  by_cases hid : t.id = r.id
  · rw [if_pos hid]
    have h2 : addMark fe (r :: rs) t = { t with synced := 1 } := by
      unfold addMark
      rw [if_pos ⟨r, List.mem_cons_self r rs, hfe, hid.symm⟩]
    rw [h2]
    unfold addMark
    split <;> rfl
  · rw [if_neg hid]
    unfold addMark
    congr 1
    simp only [List.mem_cons, eq_iff_iff]
    constructor
    · rintro ⟨x, hx, h1, h2⟩; exact ⟨x, Or.inr hx, h1, h2⟩
    · rintro ⟨x, hx, h1, h2⟩
      rcases hx with rfl | hx
      · exact absurd h2.symm hid
      · exact ⟨x, hx, h1, h2⟩

theorem foldl_addPhaseStep_tracks (env : SyncEnv) (rows : List TrackRow)
    (c : Conn) (dev : DeviceDB) :
    ((rows.foldl (addPhaseStep env) (c, dev)).1).current.tracks =
      c.current.tracks.map (addMark env.fileExists rows) := by
  induction rows generalizing c dev with
  | nil =>
      rw [List.foldl_nil, funext (addMark_nil env.fileExists), List.map_id']
  | cons r rs ih =>
      rw [List.foldl_cons]
      have hrec := ih (addPhaseStep env (c, dev) r).1 (addPhaseStep env (c, dev) r).2
      rw [Prod.mk.eta] at hrec
      rw [hrec]
      cases hfe : env.fileExists r.file_path with
      | false =>
          have h1 : (addPhaseStep env (c, dev) r).1 = c := by
            simp [addPhaseStep, hfe]
          rw [h1, funext (addMark_cons_skip env.fileExists r rs hfe)]
      | true =>
          have h1 : (addPhaseStep env (c, dev) r).1 = mark_synced r.id c := by
            simp [addPhaseStep, hfe]
          rw [h1]
          have hcur : (mark_synced r.id c).current.tracks =
              c.current.tracks.map
                (fun t => if t.id = r.id then { t with synced := 1 } else t) := rfl
          rw [hcur, List.map_map]
          have hc : addMark env.fileExists rs ∘
              (fun t => if t.id = r.id then { t with synced := 1 } else t) =
              addMark env.fileExists (r :: rs) :=
            funext (addMark_cons_mark env.fileExists r rs hfe)
          rw [hc]

theorem foldl_addPhaseStep_clean (env : SyncEnv) (rows : List TrackRow)
    (c : Conn) (dev : DeviceDB) (h : c.committed = c.current) :
    ((rows.foldl (addPhaseStep env) (c, dev)).1).committed =
      ((rows.foldl (addPhaseStep env) (c, dev)).1).current := by
  induction rows generalizing c dev with
  | nil => exact h
  | cons r rs ih =>
      rw [List.foldl_cons]
      have hcl : (addPhaseStep env (c, dev) r).1.committed =
          (addPhaseStep env (c, dev) r).1.current := by
        cases hfe : env.fileExists r.file_path with
        | false =>
            have h1 : (addPhaseStep env (c, dev) r).1 = c := by
              simp [addPhaseStep, hfe]
            rw [h1]; exact h
        | true =>
            have h1 : (addPhaseStep env (c, dev) r).1 = mark_synced r.id c := by
              simp [addPhaseStep, hfe]
            rw [h1]; rfl
      have hrec := ih (addPhaseStep env (c, dev) r).1 (addPhaseStep env (c, dev) r).2 hcl
      rw [Prod.mk.eta] at hrec
      exact hrec

theorem addPhase_tracks (env : SyncEnv) (c0 : Conn) (dev0 : DeviceDB) :
    ((addPhase env c0 dev0).1).current.tracks =
      c0.current.tracks.map (addMark env.fileExists (get_unsynced c0.current)) :=
  foldl_addPhaseStep_tracks env (get_unsynced c0.current) c0 dev0

theorem addPhase_clean (env : SyncEnv) (c0 : Conn) (dev0 : DeviceDB)
    (h : c0.committed = c0.current) :
    ((addPhase env c0 dev0).1).committed = ((addPhase env c0 dev0).1).current :=
  foldl_addPhaseStep_clean env (get_unsynced c0.current) c0 dev0 h

theorem purge_deleted_clean (c : Conn) :
    (purge_deleted c).committed = (purge_deleted c).current := rfl

theorem purge_deleted_tracks (c : Conn) :
    (purge_deleted c).current.tracks =
      c.current.tracks.filter (fun t => decide (¬ t.deleted = 1)) := rfl

theorem syncBody_conn (env : SyncEnv) (hm : env.mplOk = true) (c0 : Conn)
    (dev0 : DeviceDB) :
    (syncBody env c0 dev0).conn =
      if get_deleted ((addPhase env c0 dev0).1).current = [] then (addPhase env c0 dev0).1
      else purge_deleted (addPhase env c0 dev0).1 := by
  unfold syncBody
  rw [hm]
  cases hdel : get_deleted ((addPhase env c0 dev0).1).current with
  | nil => cases hw : env.writeOk <;> simp [hdel, hw]
  | cons a l => cases hw : env.writeOk <;> simp [hdel, hw]

theorem syncBody_err (env : SyncEnv) (hm : env.mplOk = true) (c0 : Conn)
    (dev0 : DeviceDB) :
    (syncBody env c0 dev0).err = none ∨
      (syncBody env c0 dev0).err = some SyncErr.writeFailed := by
  unfold syncBody
  rw [hm]
  cases hdel : get_deleted ((addPhase env c0 dev0).1).current with
  | nil => cases hw : env.writeOk <;> simp [hdel, hw]
  | cons a l => cases hw : env.writeOk <;> simp [hdel, hw]

theorem sync_some (env : SyncEnv) (hp : env.parseOk = true) (m : String)
    (hm : ¬ m = "") (dev : DeviceDB) (c : Conn) :
    sync env (some m) dev c = syncBody env c dev := by
  unfold sync
  rw [hp]
  have ht : truthy (some m) = true := by simp [truthy, hm]
  rw [ht]
  simp

/-! ### Supporting lemmas about the artwork pipeline -/

theorem findArt_append_of_none (l : List ArtRow) (k : String) (x : ArtRow)
    (h : findArt l k = none) :
    findArt (l ++ [x]) k = if x.album_key = k then some x else none := by
  induction l with
  | nil => rfl
  | cons a l ih =>
      by_cases ha : a.album_key = k
      · simp [findArt, ha] at h
      · simp only [findArt, ha, if_false, List.cons_append] at h ⊢
        exact ih h

theorem findArt_map_of_keyFix (f : ArtRow → ArtRow)
    (hf : ∀ r, (f r).album_key = r.album_key) (l : List ArtRow) (k : String) :
    findArt (l.map f) k = Option.map f (findArt l k) := by
  induction l with
  | nil => rfl
  | cons a l ih =>
      by_cases ha : a.album_key = k
      · simp [findArt, hf a, ha]
      · simp [findArt, hf a, ha, ih]

theorem goc_decode_fail (pre : List Nat → Option (List Nat))
    (hash : List Nat → String) (artist album : String) (raw : List Nat) (db : DB)
    (hart : findArt db.artwork (album_key artist album) = none)
    (hpre : pre raw = none) :
    get_or_create_ipod_artwork pre hash artist album raw db = ⟨none, db, true⟩ := by
  simp only [get_or_create_ipod_artwork, hart, hpre]

theorem goc_cheap (pre : List Nat → Option (List Nat)) (hash : List Nat → String)
    (artist album : String) (raw : List Nat) (db : DB) (row : ArtRow)
    (hfind : findArt db.artwork (album_key artist album) = some row)
    (hh : row.image_hash = hash raw) :
    get_or_create_ipod_artwork pre hash artist album raw db = ⟨some row.id, db, false⟩ := by
  simp [get_or_create_ipod_artwork, hfind, hh]

theorem goc_update (pre : List Nat → Option (List Nat)) (hash : List Nat → String)
    (artist album : String) (raw : List Nat) (db : DB) (row : ArtRow) (p : List Nat)
    (hfind : findArt db.artwork (album_key artist album) = some row)
    (hh : ¬ row.image_hash = hash raw)
    (hpre : pre raw = some p) :
    get_or_create_ipod_artwork pre hash artist album raw db =
      ⟨some row.id,
       { db with artwork := db.artwork.map (fun r =>
           if r.id = row.id then { r with image_hash := hash raw, image_data := p } else r) },
       true⟩ := by
  simp [get_or_create_ipod_artwork, hfind, hh, hpre]

theorem goc_update_fail (pre : List Nat → Option (List Nat)) (hash : List Nat → String)
    (artist album : String) (raw : List Nat) (db : DB) (row : ArtRow)
    (hfind : findArt db.artwork (album_key artist album) = some row)
    (hh : ¬ row.image_hash = hash raw)
    (hpre : pre raw = none) :
    get_or_create_ipod_artwork pre hash artist album raw db = ⟨none, db, true⟩ := by
  simp [get_or_create_ipod_artwork, hfind, hh, hpre]

theorem goc_new (pre : List Nat → Option (List Nat)) (hash : List Nat → String)
    (artist album : String) (raw : List Nat) (db : DB) (p : List Nat)
    (hfind : findArt db.artwork (album_key artist album) = none)
    (hpre : pre raw = some p) :
    get_or_create_ipod_artwork pre hash artist album raw db =
      ⟨some db.nextArtId,
       { db with artwork := db.artwork ++ [⟨db.nextArtId, album_key artist album, hash raw, p⟩], nextArtId := db.nextArtId + 1 },
       true⟩ := by
  simp [get_or_create_ipod_artwork, hfind, hpre]

/-! ### Claims -/

/-- C10: when no device has been detected (the mountpoint attribute is
None), needs_init reports false rather than true or an error. -/
theorem c10_needs_init_absent_device (sysInfoExtendedExists : Bool) :
    needs_init none sysInfoExtendedExists = false := rfl

/-- C5: in every catalog state, the unsynced set (synced=0, deleted=0)
and the deleted set (deleted=1, synced=1) are disjoint: a row returned by
get_unsynced is never returned by get_deleted. -/
theorem c5_unsynced_deleted_disjoint (db : DB) (t : TrackRow)
    (h : t ∈ get_unsynced db) : t ∉ get_deleted db := by
  intro hdel
  obtain ⟨hs0, hd0⟩ : t.synced = 0 ∧ t.deleted = 0 :=
    of_decide_eq_true (List.mem_filter.mp h).2
  obtain ⟨hd1, hs1⟩ : t.deleted = 1 ∧ t.synced = 1 :=
    of_decide_eq_true (List.mem_filter.mp hdel).2
  omega

/-- Witness for C5 at a concrete one-row catalog. -/
theorem c5_witness :
    trk 1 "/a" 0 0 ∈ get_unsynced (dbOf [trk 1 "/a" 0 0]) ∧
      trk 1 "/a" 0 0 ∉ get_deleted (dbOf [trk 1 "/a" 0 0]) :=
  ⟨by decide,
   c5_unsynced_deleted_disjoint (dbOf [trk 1 "/a" 0 0]) (trk 1 "/a" 0 0) (by decide)⟩

theorem add_track_fst_not_dup (pre : List Nat → Option (List Nat))
    (hash : List Nat → String) (meta : Meta) (c : Conn)
    (h : ¬ ∃ r ∈ c.current.tracks, r.file_path = meta.file_path) :
    ¬ (add_track pre hash meta c).fst = AddOutcome.duplicate := by
  unfold add_track
  rw [if_neg h]
  dsimp only
  split
  · split <;> simp
  · simp

/-- C4 counterexample: the only record at path /a is soft-deleted, yet
inserting /a again is rejected as a duplicate instead of succeeding. -/
theorem c4_counterexample :
    ((connOf [trk 1 "/a" 0 1]).current.tracks.map (fun t => (t.file_path, t.deleted)))
        = [("/a", 1)] ∧
    (add_track (fun _ => some [9]) (fun _ => "h")
        ⟨"/a", "x", "", "", "", 0, 0, 0, 0, none, "mp3"⟩ (connOf [trk 1 "/a" 0 1])).fst =
      AddOutcome.duplicate := by
  constructor
  · decide
  · decide

/-- C4 amended: insertion is rejected as a duplicate exactly when some
non-purged record with the same file path exists in the table, whether or
not that record is soft-deleted. -/
theorem c4_duplicate_iff (pre : List Nat → Option (List Nat))
    (hash : List Nat → String) (meta : Meta) (c : Conn) :
    (add_track pre hash meta c).fst = AddOutcome.duplicate ↔
      ∃ r ∈ c.current.tracks, r.file_path = meta.file_path := by
  by_cases h : ∃ r ∈ c.current.tracks, r.file_path = meta.file_path
  · constructor
    · intro _; exact h
    · intro _
      unfold add_track
      rw [if_pos h]
  · constructor
    · intro heq
      exact absurd heq (add_track_fst_not_dup pre hash meta c h)
    · intro hex
      exact absurd hex h

/-- C8 counterexample: a fresh insert whose embedded cover art fails to
decode ends with the decode exception escaping add_track (artError);
nothing is committed to the catalog, so the track is not stored. -/
theorem c8_counterexample :
    (add_track (fun _ => none) (fun _ => "h")
        ⟨"/new", "x", "A", "B", "", 0, 0, 0, 0, some [1, 2], "mp3"⟩ (connOf [])).fst =
      AddOutcome.artError ∧
    (add_track (fun _ => none) (fun _ => "h")
        ⟨"/new", "x", "A", "B", "", 0, 0, 0, 0, some [1, 2], "mp3"⟩ (connOf [])).snd.committed.tracks
      = [] := by
  constructor
  · decide
  · decide

/-- C8 amended: whenever a non-duplicate insert carries non-empty cover
art, the artwork step actually decodes (the lookup yields no row whose
stored hash already matches — so either no artwork row exists for the
album key, or one exists with a differing hash), and decoding fails,
add_track ends in artError (the exception propagates out of the call),
the committed catalog is unchanged, and the inserted row sits only in
the uncommitted transaction, without an artwork reference. -/
theorem c8_decode_error_uncommitted (pre : List Nat → Option (List Nat))
    (hash : List Nat → String) (meta : Meta) (c : Conn) (raw : List Nat)
    (hraw : meta.cover_art = some raw) (hne : ¬ raw = [])
    (hdup : ¬ ∃ r ∈ c.current.tracks, r.file_path = meta.file_path)
    (hart : ∀ row : ArtRow,
      findArt c.current.artwork (album_key meta.artist meta.album) = some row →
        ¬ row.image_hash = hash raw)
    (hpre : pre raw = none) :
    (add_track pre hash meta c).fst = AddOutcome.artError ∧
    (add_track pre hash meta c).snd.committed = c.committed ∧
    (add_track pre hash meta c).snd.current.tracks =
      c.current.tracks ++ [⟨c.current.nextTrackId, meta.file_path, meta.title, meta.artist, meta.album, meta.genre, meta.track_nr, meta.duration_ms, meta.bitrate, meta.filesize, meta.cover_art, 0, 0, meta.filetype, none⟩] := by
  have htb : truthyBytes meta.cover_art = true := by
    rw [hraw]
    simp [truthyBytes, hne]
  have hgd : meta.cover_art.getD [] = raw := by rw [hraw]; rfl
  cases hfind : findArt c.current.artwork (album_key meta.artist meta.album) with
  | none =>
      refine ⟨?_, ?_, ?_⟩ <;>
        simp [add_track, hdup, htb, hgd, get_or_create_ipod_artwork, hfind, hpre]
  | some row =>
      have hh : ¬ row.image_hash = hash raw := hart row hfind
      refine ⟨?_, ?_, ?_⟩ <;>
        simp [add_track, hdup, htb, hgd, get_or_create_ipod_artwork, hfind, hh, hpre]

/-- C6: calling the artwork get-or-create twice with byte-identical raw
bytes for the same album key returns the same artwork id both times; the
second call performs no reprocessing (never invokes the preprocessor) and
leaves the artwork table, hence the stored image hash and processed
bytes, unchanged. -/
theorem c6_artwork_stable (pre : List Nat → Option (List Nat))
    (hash : List Nat → String) (artist album : String) (raw : List Nat)
    (db : DB) (id1 : Nat)
    (h1 : (get_or_create_ipod_artwork pre hash artist album raw db).out = some id1) :
    (get_or_create_ipod_artwork pre hash artist album raw
        (get_or_create_ipod_artwork pre hash artist album raw db).db).out = some id1 ∧
    (get_or_create_ipod_artwork pre hash artist album raw
        (get_or_create_ipod_artwork pre hash artist album raw db).db).db =
      (get_or_create_ipod_artwork pre hash artist album raw db).db ∧
    (get_or_create_ipod_artwork pre hash artist album raw
        (get_or_create_ipod_artwork pre hash artist album raw db).db).reprocessed = false := by
  cases hfind : findArt db.artwork (album_key artist album) with
  | some row =>
      by_cases hh : row.image_hash = hash raw
      · have hr1 := goc_cheap pre hash artist album raw db row hfind hh
        rw [hr1] at h1 ⊢
        dsimp only at h1 ⊢
        rw [hr1]
        exact ⟨h1, rfl, rfl⟩
      · cases hpre : pre raw with
        | none =>
            have hr1 := goc_update_fail pre hash artist album raw db row hfind hh hpre
            rw [hr1] at h1
            simp at h1
        | some p =>
            have hr1 := goc_update pre hash artist album raw db row p hfind hh hpre
            have hf : ∀ r : ArtRow,
                ((fun r => if r.id = row.id then { r with image_hash := hash raw, image_data := p } else r) r).album_key
                  = r.album_key := by
              intro r
              by_cases hid : r.id = row.id <;> simp [hid]
            have hfind2 : findArt (db.artwork.map (fun r =>
                if r.id = row.id then { r with image_hash := hash raw, image_data := p } else r))
                (album_key artist album) =
                some { row with image_hash := hash raw, image_data := p } := by
              rw [findArt_map_of_keyFix _ hf, hfind]
              simp
            have hr2 := goc_cheap pre hash artist album raw
                { db with artwork := db.artwork.map (fun r =>
                    if r.id = row.id then { r with image_hash := hash raw, image_data := p } else r) }
                { row with image_hash := hash raw, image_data := p } hfind2 rfl
            rw [hr1] at h1 ⊢
            dsimp only at h1 ⊢
            rw [hr2]
            exact ⟨h1, rfl, rfl⟩
  | none =>
      cases hpre : pre raw with
      | none =>
          have hr1 := goc_decode_fail pre hash artist album raw db hfind hpre
          rw [hr1] at h1
          simp at h1
      | some p =>
          have hr1 := goc_new pre hash artist album raw db p hfind hpre
          have hfind2 : findArt
              (db.artwork ++ [⟨db.nextArtId, album_key artist album, hash raw, p⟩])
              (album_key artist album) =
              some ⟨db.nextArtId, album_key artist album, hash raw, p⟩ := by
            rw [findArt_append_of_none _ _ _ hfind]
            simp
          have hr2 := goc_cheap pre hash artist album raw
              { db with artwork := db.artwork ++ [⟨db.nextArtId, album_key artist album, hash raw, p⟩], nextArtId := db.nextArtId + 1 }
              ⟨db.nextArtId, album_key artist album, hash raw, p⟩ hfind2 rfl
          rw [hr1] at h1 ⊢
          dsimp only at h1 ⊢
          rw [hr2]
          exact ⟨h1, rfl, rfl⟩

/-- Witness for C6: a first call on an empty artwork table creates row 1;
the instantiated theorem then covers the second call. -/
theorem c6_witness :
    (get_or_create_ipod_artwork (fun _ => some [9]) (fun _ => "h") "A" "B" [1]
        (dbOf [])).out = some 1 ∧
    ((get_or_create_ipod_artwork (fun _ => some [9]) (fun _ => "h") "A" "B" [1]
        (get_or_create_ipod_artwork (fun _ => some [9]) (fun _ => "h") "A" "B" [1]
          (dbOf [])).db).out = some 1 ∧
      (get_or_create_ipod_artwork (fun _ => some [9]) (fun _ => "h") "A" "B" [1]
        (get_or_create_ipod_artwork (fun _ => some [9]) (fun _ => "h") "A" "B" [1]
          (dbOf [])).db).db =
        (get_or_create_ipod_artwork (fun _ => some [9]) (fun _ => "h") "A" "B" [1]
          (dbOf [])).db ∧
      (get_or_create_ipod_artwork (fun _ => some [9]) (fun _ => "h") "A" "B" [1]
        (get_or_create_ipod_artwork (fun _ => some [9]) (fun _ => "h") "A" "B" [1]
          (dbOf [])).db).reprocessed = false) :=
  ⟨by decide,
   c6_artwork_stable (fun _ => some [9]) (fun _ => "h") "A" "B" [1] (dbOf []) 1 (by decide)⟩

theorem syncBody_ret (env : SyncEnv) (c0 : Conn) (dev0 : DeviceDB) :
    (syncBody env c0 dev0).ret = none := by
  unfold syncBody
  cases hm : env.mplOk with
  | false => simp [hm]
  | true =>
      cases hdel : get_deleted ((addPhase env c0 dev0).1).current with
      | nil => cases hw : env.writeOk <;> simp [hm, hdel, hw]
      | cons a l => cases hw : env.writeOk <;> simp [hm, hdel, hw]

theorem sync_ret (env : SyncEnv) (mp : Option String) (dev : DeviceDB) (c : Conn) :
    (sync env mp dev c).ret = none := by
  unfold sync
  cases hmp : truthy mp with
  | false => simp [hmp]
  | true =>
      cases hp : env.parseOk with
      | true => simp [hmp, hp, syncBody_ret]
      | false =>
          cases hi : env.initOk with
          | false => simp [hmp, hp, hi]
          | true => cases hpa : env.parseAfterInitOk <;> simp [hmp, hp, hi, hpa, syncBody_ret]

/-- C1 counterexample: a run in which the device database write fails
(envWriteFail) still ends with track 1 marked synced in the committed
catalog and the deleted row 2 purged from it; the write failure is only
reported afterwards as the raised error. -/
theorem c1_counterexample :
    (sync envWriteFail (some "/mp") emptyDevice
        (connOf [trk 1 "/a" 0 0, trk 2 "/b" 1 1])).err = some SyncErr.writeFailed ∧
    ((sync envWriteFail (some "/mp") emptyDevice
        (connOf [trk 1 "/a" 0 0, trk 2 "/b" 1 1])).conn.committed.tracks.map
      (fun t => (t.id, t.synced, t.deleted))) = [(1, 1, 0)] := by
  exact ⟨by decide, by decide⟩

/-- C1 amended: catalog-side state changes (mark_synced during the
additions loop, purge_deleted before the write) are committed during the
run and do not depend on whether the device database write succeeds: the
resulting catalog connection is identical for any write outcome. -/
theorem syncBody_conn_writeOk_irrel (fe cp : String → Bool) (b p i pa mo : Bool)
    (c0 : Conn) (dev0 : DeviceDB) :
    (syncBody ⟨fe, cp, b, p, i, pa, mo⟩ c0 dev0).conn =
      (syncBody ⟨fe, cp, true, p, i, pa, mo⟩ c0 dev0).conn := by
  cases mo with
  | false => rfl
  | true =>
      have hstep : addPhase ⟨fe, cp, b, p, i, pa, true⟩ =
          addPhase ⟨fe, cp, true, p, i, pa, true⟩ := rfl
      rw [syncBody_conn ⟨fe, cp, b, p, i, pa, true⟩ rfl c0 dev0,
          syncBody_conn ⟨fe, cp, true, p, i, pa, true⟩ rfl c0 dev0, hstep]

theorem c1_catalog_independent_of_write (env : SyncEnv) (mp : Option String)
    (dev : DeviceDB) (c : Conn) (b1 b2 : Bool) :
    (sync { env with writeOk := b1 } mp dev c).conn =
      (sync { env with writeOk := b2 } mp dev c).conn := by
  obtain ⟨fe, cp, w, p, i, pa, mo⟩ := env
  cases hmp : truthy mp with
  | false => simp [sync, hmp]
  | true =>
      cases p with
      | true =>
          simp only [sync, hmp]
          simp only [Bool.true_eq_false, if_false, eq_self_iff_true, if_true]
          rw [syncBody_conn_writeOk_irrel fe cp b1 true i pa mo c dev,
              syncBody_conn_writeOk_irrel fe cp b2 true i pa mo c dev]
      | false =>
          cases i with
          | false => simp [sync, hmp]
          | true =>
              cases pa with
              | false => simp [sync, hmp]
              | true =>
                  simp only [sync, hmp]
                  simp only [Bool.true_eq_false, if_false, Bool.false_eq_true,
                             eq_self_iff_true, if_true]
                  rw [syncBody_conn_writeOk_irrel fe cp b1 false true true mo c emptyDevice,
                      syncBody_conn_writeOk_irrel fe cp b2 false true true mo c emptyDevice]

/-- C2 counterexample: the only unsynced track's media copy fails
(envCopyFail), the run completes without error, and the track is marked
synced in the committed catalog anyway, leaving the unsynced set empty. -/
theorem c2_counterexample :
    envCopyFail.copyOk "/a" = false ∧
    (sync envCopyFail (some "/mp") emptyDevice (connOf [trk 1 "/a" 0 0])).err = none ∧
    ((sync envCopyFail (some "/mp") emptyDevice (connOf [trk 1 "/a" 0 0])).conn.committed.tracks.map
      (fun t => (t.id, t.synced))) = [(1, 1)] := by
  exact ⟨rfl, by decide, by decide⟩

/-- C2 amended: a per-track failure never aborts the run (only the final
write can raise), but a copy failure does not keep the track unsynced:
every unsynced row whose source file exists is marked synced in the
committed catalog regardless of the copy outcome, and only rows whose
source file is missing remain in the unsynced set for the next run. -/
theorem c2_copy_failure_still_marked (fe cp : String → Bool) (w : Bool) (m : String)
    (dev : DeviceDB) (c : Conn) (row : TrackRow)
    (hm : ¬ m = "")
    (hclean : c.committed = c.current)
    (hids : (c.current.tracks.map TrackRow.id).Nodup)
    (hrow : row ∈ get_unsynced c.current) :
    ((sync ⟨fe, cp, w, true, true, true, true⟩ (some m) dev c).err = none ∨
      (sync ⟨fe, cp, w, true, true, true, true⟩ (some m) dev c).err = some SyncErr.writeFailed) ∧
    (fe row.file_path = true →
      { row with synced := 1 } ∈
        (sync ⟨fe, cp, w, true, true, true, true⟩ (some m) dev c).conn.committed.tracks) ∧
    (fe row.file_path = false →
      row ∈ get_unsynced (sync ⟨fe, cp, w, true, true, true, true⟩ (some m) dev c).conn.committed) := by
  rw [sync_some ⟨fe, cp, w, true, true, true, true⟩ rfl m hm dev c]
  have hmemt : row ∈ c.current.tracks := (List.mem_filter.mp hrow).1
  obtain ⟨hs, hd⟩ : row.synced = 0 ∧ row.deleted = 0 :=
    of_decide_eq_true (List.mem_filter.mp hrow).2
  have hclean2 : (syncBody ⟨fe, cp, w, true, true, true, true⟩ c dev).conn.committed =
      (syncBody ⟨fe, cp, w, true, true, true, true⟩ c dev).conn.current := by
    rw [syncBody_conn ⟨fe, cp, w, true, true, true, true⟩ rfl c dev]
    split
    · exact addPhase_clean _ c dev hclean
    · rfl
  refine ⟨syncBody_err _ rfl c dev, ?_, ?_⟩
  · intro hfe
    have himg : addMark fe (get_unsynced c.current) row = { row with synced := 1 } := by
      unfold addMark
      rw [if_pos ⟨row, hrow, hfe, rfl⟩]
    have hmem1 : { row with synced := 1 } ∈
        ((addPhase ⟨fe, cp, w, true, true, true, true⟩ c dev).1).current.tracks := by
      rw [addPhase_tracks]
      exact List.mem_map.mpr ⟨row, hmemt, himg⟩
    rw [hclean2, syncBody_conn ⟨fe, cp, w, true, true, true, true⟩ rfl c dev]
    split
    · exact hmem1
    · rw [purge_deleted_tracks]
      refine List.mem_filter.mpr ⟨hmem1, ?_⟩
      simp [hd]
  · intro hfe
    have hnc : ¬ ∃ r ∈ get_unsynced c.current, fe r.file_path = true ∧ r.id = row.id := by
      rintro ⟨x, hx, hfex, hxid⟩
      have hxmem : x ∈ c.current.tracks := (List.mem_filter.mp hx).1
      have hxeq : x = row := List.inj_on_of_nodup_map hids hxmem hmemt hxid
      rw [hxeq, hfe] at hfex
      cases hfex
    have himg : addMark fe (get_unsynced c.current) row = row := by
      unfold addMark
      rw [if_neg hnc]
    have hmem1 : row ∈
        ((addPhase ⟨fe, cp, w, true, true, true, true⟩ c dev).1).current.tracks := by
      rw [addPhase_tracks]
      exact List.mem_map.mpr ⟨row, hmemt, himg⟩
    rw [hclean2, syncBody_conn ⟨fe, cp, w, true, true, true, true⟩ rfl c dev]
    unfold get_unsynced
    split
    · exact List.mem_filter.mpr ⟨hmem1, by simp [hs, hd]⟩
    · rw [purge_deleted_tracks]
      refine List.mem_filter.mpr ⟨List.mem_filter.mpr ⟨hmem1, ?_⟩, ?_⟩
      · simp [hd]
      · simp [hs, hd]

/-- Witness for C2: one unsynced track whose source file is missing. -/
theorem c2_witness :
    (¬ "/m" = "") ∧
    (connOf [trk 1 "/a" 0 0]).committed = (connOf [trk 1 "/a" 0 0]).current ∧
    ((connOf [trk 1 "/a" 0 0]).current.tracks.map TrackRow.id).Nodup ∧
    trk 1 "/a" 0 0 ∈ get_unsynced (connOf [trk 1 "/a" 0 0]).current ∧
    (((sync ⟨fun _ => false, fun _ => true, true, true, true, true, true⟩ (some "/m")
          emptyDevice (connOf [trk 1 "/a" 0 0])).err = none ∨
        (sync ⟨fun _ => false, fun _ => true, true, true, true, true, true⟩ (some "/m")
          emptyDevice (connOf [trk 1 "/a" 0 0])).err = some SyncErr.writeFailed) ∧
      ((fun _ => false : String → Bool) (trk 1 "/a" 0 0).file_path = true →
        { trk 1 "/a" 0 0 with synced := 1 } ∈
          (sync ⟨fun _ => false, fun _ => true, true, true, true, true, true⟩ (some "/m")
            emptyDevice (connOf [trk 1 "/a" 0 0])).conn.committed.tracks) ∧
      ((fun _ => false : String → Bool) (trk 1 "/a" 0 0).file_path = false →
        trk 1 "/a" 0 0 ∈ get_unsynced
          (sync ⟨fun _ => false, fun _ => true, true, true, true, true, true⟩ (some "/m")
            emptyDevice (connOf [trk 1 "/a" 0 0])).conn.committed)) :=
  ⟨by decide, rfl, by decide, by decide,
   c2_copy_failure_still_marked (fun _ => false) (fun _ => true) true "/m" emptyDevice
     (connOf [trk 1 "/a" 0 0]) (trk 1 "/a" 0 0) (by decide) rfl (by decide) (by decide)⟩

/-- C3 counterexample: the Scenario A run (three unsynced tracks, the
source file of track 2 missing) completes without error, marks tracks 1
and 3 synced and leaves track 2 unsynced — but returns None: no record
with added, removed and failed counts is returned. -/
theorem c3_counterexample :
    (sync envFileBMissing (some "/mp") emptyDevice
        (connOf [trk 1 "/a" 0 0, trk 2 "/b" 0 0, trk 3 "/c" 0 0])).err = none ∧
    (sync envFileBMissing (some "/mp") emptyDevice
        (connOf [trk 1 "/a" 0 0, trk 2 "/b" 0 0, trk 3 "/c" 0 0])).ret = none ∧
    ((sync envFileBMissing (some "/mp") emptyDevice
        (connOf [trk 1 "/a" 0 0, trk 2 "/b" 0 0, trk 3 "/c" 0 0])).conn.committed.tracks.map
      (fun t => (t.id, t.synced))) = [(1, 1), (2, 0), (3, 1)] := by
  exact ⟨by decide, by decide, by decide⟩

/-- C3 amended: a completed sync invocation returns no result record at
all — the source function has no return statement, so its return value is
None; the added, removed and failed counts are not part of any returned
value. -/
theorem c3_sync_returns_no_counts (env : SyncEnv) (mp : Option String)
    (dev : DeviceDB) (c : Conn) (_h : (sync env mp dev c).err = none) :
    (sync env mp dev c).ret = none :=
  sync_ret env mp dev c

/-- Witness for C3: a completed run on an empty catalog. -/
theorem c3_witness :
    (sync envAllOk (some "/m") emptyDevice (connOf [])).err = none ∧
    (sync envAllOk (some "/m") emptyDevice (connOf [])).ret = none :=
  ⟨by decide,
   c3_sync_returns_no_counts envAllOk (some "/m") emptyDevice (connOf []) (by decide)⟩

/-- C7 counterexample: the catalog holds a deleted-and-synced track 1
whose (title, artist, album) matches nothing on the (empty) device, and a
soft-deleted never-synced track 2; the run removes nothing from the
device, yet both rows are purged from the committed catalog. -/
theorem c7_counterexample :
    get_deleted (connOf [trk 1 "/a" 1 1, trk 2 "/b" 0 1]).current = [trk 1 "/a" 1 1] ∧
    (trk 2 "/b" 0 1).synced = 0 ∧ (trk 2 "/b" 0 1).deleted = 1 ∧
    (sync envAllOk (some "/mp") emptyDevice
        (connOf [trk 1 "/a" 1 1, trk 2 "/b" 0 1])).dev.tracks = [] ∧
    (sync envAllOk (some "/mp") emptyDevice
        (connOf [trk 1 "/a" 1 1, trk 2 "/b" 0 1])).conn.committed.tracks = [] := by
  exact ⟨by decide, rfl, rfl, by decide, by decide⟩

/-- C7 amended: purging is wholesale and unconditional on device-side
confirmation: as soon as the deleted-and-synced set is non-empty, every
soft-deleted row — synced or not, device-matched or not — is removed from
the committed catalog by purge_deleted, before the device database is
written. -/
theorem c7_purge_all_when_any (fe cp : String → Bool) (w : Bool) (m : String)
    (dev : DeviceDB) (c : Conn)
    (hm : ¬ m = "") (hclean : c.committed = c.current)
    (hne : ¬ get_deleted c.current = []) :
    ∀ t ∈ (sync ⟨fe, cp, w, true, true, true, true⟩ (some m) dev c).conn.committed.tracks,
      ¬ t.deleted = 1 := by
  rw [sync_some ⟨fe, cp, w, true, true, true, true⟩ rfl m hm dev c]
  obtain ⟨t0, ht0⟩ := List.exists_mem_of_ne_nil _ hne
  have ht0mem : t0 ∈ c.current.tracks := (List.mem_filter.mp ht0).1
  obtain ⟨hd1, hs1⟩ : t0.deleted = 1 ∧ t0.synced = 1 :=
    of_decide_eq_true (List.mem_filter.mp ht0).2
  have himg : addMark fe (get_unsynced c.current) t0 ∈
      ((addPhase ⟨fe, cp, w, true, true, true, true⟩ c dev).1).current.tracks := by
    rw [addPhase_tracks]
    exact List.mem_map.mpr ⟨t0, ht0mem, rfl⟩
  have hdel2 : ¬ get_deleted ((addPhase ⟨fe, cp, w, true, true, true, true⟩ c dev).1).current
      = [] := by
    have hmem : addMark fe (get_unsynced c.current) t0 ∈
        get_deleted ((addPhase ⟨fe, cp, w, true, true, true, true⟩ c dev).1).current := by
      unfold get_deleted
      refine List.mem_filter.mpr ⟨himg, ?_⟩
      have h1 := addMark_deleted fe (get_unsynced c.current) t0
      have h2 := addMark_synced_one fe (get_unsynced c.current) t0 hs1
      simp [h1, h2, hd1]
    exact List.ne_nil_of_mem hmem
  have hclean2 : (syncBody ⟨fe, cp, w, true, true, true, true⟩ c dev).conn.committed =
      (syncBody ⟨fe, cp, w, true, true, true, true⟩ c dev).conn.current := by
    rw [syncBody_conn ⟨fe, cp, w, true, true, true, true⟩ rfl c dev]
    split
    · exact addPhase_clean _ c dev hclean
    · rfl
  intro t ht
  rw [hclean2, syncBody_conn ⟨fe, cp, w, true, true, true, true⟩ rfl c dev,
      if_neg hdel2, purge_deleted_tracks] at ht
  exact of_decide_eq_true (List.mem_filter.mp ht).2

/-- Witness for C7 at a concrete catalog with one deleted-and-synced row. -/
theorem c7_witness :
    (¬ "/m" = "") ∧
    (connOf [trk 1 "/a" 1 1]).committed = (connOf [trk 1 "/a" 1 1]).current ∧
    (¬ get_deleted (connOf [trk 1 "/a" 1 1]).current = []) ∧
    (∀ t ∈ (sync ⟨fun _ => true, fun _ => true, true, true, true, true, true⟩ (some "/m")
        emptyDevice (connOf [trk 1 "/a" 1 1])).conn.committed.tracks, ¬ t.deleted = 1) :=
  ⟨by decide, rfl, by decide,
   c7_purge_all_when_any (fun _ => true) (fun _ => true) true "/m" emptyDevice
     (connOf [trk 1 "/a" 1 1]) (by decide) rfl (by decide)⟩

/-- C9 counterexample: with a mounted device whose SysInfoExtended file is
absent, needs_init reports true, yet calling iPodSync.sync directly
proceeds anyway: it completes, mutates the device database in memory and
commits a catalog change.  The refusal is not implemented inside sync. -/
theorem c9_counterexample :
    needs_init (some "/m") false = true ∧
    (sync envAllOk (some "/m") emptyDevice (connOf [trk 1 "/a" 0 0])).err = none ∧
    ((sync envAllOk (some "/m") emptyDevice (connOf [trk 1 "/a" 0 0])).conn.committed.tracks.map
      (fun t => (t.id, t.synced))) = [(1, 1)] ∧
    (sync envAllOk (some "/m") emptyDevice (connOf [trk 1 "/a" 0 0])).dev.tracks.length = 1 := by
  exact ⟨by decide, by decide, by decide, by decide⟩

/-- C9 amended: the needs-initialization refusal lives in the GUI sync
handler, not in iPodSync.sync: when the effective mountpoint needs
initialization, _on_sync_clicked prompts and returns without calling
sync, leaving both the catalog connection and the device database
untouched. -/
theorem c9_gui_guard_refuses (env : SyncEnv) (detectResult : Option String)
    (sysInfoExtendedExists : Bool) (mp0 : Option String) (dev : DeviceDB) (c : Conn)
    (h : needs_init (if truthy mp0 then mp0 else detectResult) sysInfoExtendedExists = true) :
    on_sync_clicked env detectResult sysInfoExtendedExists mp0 dev c =
      ⟨ClickOutcome.promptInit, c, dev, none⟩ := by
  have htr : truthy (if truthy mp0 then mp0 else detectResult) = true := by
    cases ht : truthy (if truthy mp0 then mp0 else detectResult) with
    | true => rfl
    | false =>
        rw [needs_init, ht] at h
        simp at h
  unfold on_sync_clicked
  dsimp only
  rw [htr, h]
  simp

/-- Witness for C9: sync button pressed with a mounted device lacking
SysInfoExtended. -/
theorem c9_witness :
    needs_init (if truthy (some "/m") then some "/m" else none) false = true ∧
    on_sync_clicked envAllOk none false (some "/m") emptyDevice (connOf []) =
      ⟨ClickOutcome.promptInit, connOf [], emptyDevice, none⟩ :=
  ⟨by decide,
   c9_gui_guard_refuses envAllOk none false (some "/m") emptyDevice (connOf []) (by decide)⟩

/-- Witness for C8: a fresh insert with undecodable cover art on a
catalog whose artwork table already holds a row for the album key with a
differing stored hash — the in-place-update branch of the artwork step,
where the decode is attempted and its failure escapes identically. -/
theorem c8_witness :
    meta8.cover_art = some [1, 2] ∧
    (¬ ([1, 2] : List Nat) = []) ∧
    (¬ ∃ r ∈ connArtStale.current.tracks, r.file_path = meta8.file_path) ∧
    (∀ row : ArtRow,
      findArt connArtStale.current.artwork (album_key meta8.artist meta8.album) = some row →
        ¬ row.image_hash = (fun _ => "h") ([1, 2] : List Nat)) ∧
    (fun _ => (none : Option (List Nat))) ([1, 2] : List Nat) = none ∧
    ((add_track (fun _ => none) (fun _ => "h") meta8 connArtStale).fst = AddOutcome.artError ∧
      (add_track (fun _ => none) (fun _ => "h") meta8 connArtStale).snd.committed =
        connArtStale.committed ∧
      (add_track (fun _ => none) (fun _ => "h") meta8 connArtStale).snd.current.tracks =
        connArtStale.current.tracks ++ [⟨connArtStale.current.nextTrackId, meta8.file_path, meta8.title, meta8.artist, meta8.album, meta8.genre, meta8.track_nr, meta8.duration_ms, meta8.bitrate, meta8.filesize, meta8.cover_art, 0, 0, meta8.filetype, none⟩]) := by
  have hart : ∀ row : ArtRow,
      findArt connArtStale.current.artwork (album_key meta8.artist meta8.album) = some row →
        ¬ row.image_hash = (fun _ => "h") ([1, 2] : List Nat) := by
    intro row hrow
    have h0 : findArt connArtStale.current.artwork (album_key meta8.artist meta8.album) =
        some artStale := by
      simp [connArtStale, artStale, findArt, meta8]
    rw [h0] at hrow
    injection hrow with h
    rw [← h]
    decide
  exact ⟨rfl, by decide, by decide, hart, rfl,
    c8_decode_error_uncommitted (fun _ => none) (fun _ => "h") meta8 connArtStale [1, 2]
      rfl (by decide) (by decide) hart rfl⟩
